import Mathlib

/-!
Shallow embedding of the ThinkBot_AL repository: the React front end in
src/src/App.tsx (state handlers, the speech-voice selection, and the
role→gender table) and the express proxy appended after it (the roleVoices
table and the POST /api/talk handler).  Stateful React code is embedded as
explicit state passing: each event handler becomes a function from the
current component state (and the outcome of its external calls, supplied as
an environment) to the next state together with a trace of observable
effects.  JavaScript string primitives are mirrored by List-Char based
definitions so that concrete runs reduce in the kernel.
-/

/-- Mirror of the JavaScript whitespace class used by String.prototype.trim
for the characters that occur in prompts: space, tab, newline, carriage
return. -/
def jsIsSpace (c : Char) : Bool :=
  c == ' ' || c == '\t' || c == '\n' || c == '\r'

/-- Mirror of JavaScript s.trim(): drop whitespace from both ends. -/
def jsTrim (s : String) : String :=
  ⟨((s.data.dropWhile jsIsSpace).reverse.dropWhile jsIsSpace).reverse⟩

/-- Mirror of JavaScript s.toLowerCase() on ASCII data. -/
def jsToLower (s : String) : String :=
  ⟨s.data.map Char.toLower⟩

/-- p occurs at the head of s (JavaScript s.startsWith(p) on the char lists). -/
def leadsWith (p s : List Char) : Bool :=
  match p, s with
  | [], _ => true
  | _ :: _, [] => false
  | a :: ps, b :: ss => a == b && leadsWith ps ss

/-- needle occurs somewhere in hay (JavaScript s.includes(needle)). -/
def hasSub (needle : List Char) : List Char → Bool
  | [] => needle.isEmpty
  | c :: rest => leadsWith needle (c :: rest) || hasSub needle rest

/-- Mirror of JavaScript s.startsWith(p). -/
def jsStartsWith (s p : String) : Bool :=
  leadsWith p.data s.data

/-- Mirror of JavaScript s.includes(sub). -/
def jsIncludes (s sub : String) : Bool :=
  hasSub sub.data s.data

/-- Mirror of JavaScript lang.split(sep)[0]: the segment before the first
separator (the whole string when the separator does not occur). -/
def splitHead (sep : Char) (s : List Char) : List Char :=
  s.takeWhile (· != sep)

/-- Mirror of JavaScript s.slice(7, -3): characters from index 7 up to
three before the end, used to strip a leading three-backtick json fence. -/
def sliceSeven (s : String) : String :=
  ⟨(s.data.take (s.data.length - 3)).drop 7⟩

/-- Gender hint for voice selection ('male' | 'female' | 'neutral' in the
source). -/
inductive Gender where
  | male
  | female
  | neutral
deriving Repr, DecidableEq

/-- The literal string the source compares against voice names
(v.name.toLowerCase().includes(gender)). -/
def genderWord : Gender → String
  | .male => "male"
  | .female => "female"
  | .neutral => "neutral"

/-- The roleToGender table of App.tsx (lines 5-33): role string to gender
hint; absent keys yield none (undefined in the source). -/
def roleToGender : String → Option Gender
  | "king" => some .male
  | "policeman" => some .male
  | "police" => some .male
  | "police officer" => some .male
  | "farmer" => some .male
  | "doctor" => some .male
  | "prince" => some .male
  | "emperor" => some .male
  | "pirate" => some .male
  | "knight" => some .male
  | "wizard" => some .male
  | "detective" => some .male
  | "man" => some .male
  | "boy" => some .male
  | "queen" => some .female
  | "policewoman" => some .female
  | "teacher" => some .female
  | "dancer" => some .female
  | "singer" => some .female
  | "princess" => some .female
  | "empress" => some .female
  | "witch" => some .female
  | "actress" => some .female
  | "woman" => some .female
  | "girl" => some .female
  | _ => none

/-- The gender derived from the active role in handleSubmit line 190-191:
roleToGender[currentRole.toLowerCase().trim()] with neutral as fallback. -/
def genderOf (role : String) : Gender :=
  (roleToGender (jsTrim (jsToLower role))).getD .neutral

/-- A SpeechSynthesisVoice as far as the program inspects it: name, lang,
localService flag and default flag. -/
structure Voice where
  name : String
  lang : String
  localService : Bool
  isDefault : Bool
deriving Repr, DecidableEq

/-- The language filter of speak line 72:
v.lang === lang or v.lang.startsWith(lang.split('-')[0]). -/
def langMatches (lang : String) (v : Voice) : Bool :=
  v.lang == lang || leadsWith (splitHead '-' lang.data) v.lang.data

/-- langVoices of speak: all installed voices passing the language filter. -/
def langVoicesOf (voices : List Voice) (lang : String) : List Voice :=
  voices.filter (langMatches lang)

/-- The gender filter of speak line 79:
v.name.toLowerCase().includes(gender). -/
def genderMatches (g : Gender) (v : Voice) : Bool :=
  jsIncludes (jsToLower v.name) (genderWord g)

/-- The voice-selection logic of speak (App.tsx lines 71-94): among the
language-matching voices, prefer a gender-matching one (non-local first,
else the first), otherwise the default voice, else a non-local voice, else
the first language match; none when no voice matches the language. -/
def selectVoice (voices : List Voice) (lang : String) (gender : Gender) : Option Voice :=
  match langVoicesOf voices lang with
  | [] => none
  | v0 :: vrest =>
    let genderPick : Option Voice :=
      match gender with
      | .neutral => none
      | _ =>
        match (v0 :: vrest).filter (genderMatches gender) with
        | [] => none
        | g0 :: grest =>
          some (((g0 :: grest).find? (fun v => !v.localService)).getD g0)
    match genderPick with
    | some v => some v
    | none =>
      some ((((v0 :: vrest).find? (fun v => v.isDefault)).orElse
              (fun _ => (v0 :: vrest).find? (fun v => !v.localService))).getD v0)

/-- One observable action on the global window.speechSynthesis object. -/
inductive SpeechAction where
  | cancel
  | utter (text lang : String) (voice : Option Voice)
deriving Repr, DecidableEq

/-- Which hosted request a submission issues. -/
inductive RequestKind where
  | transform
  | chat
deriving Repr, DecidableEq

/-- Observable effects of an event handler, in program order. -/
inductive Effect where
  | setLoading (b : Bool)
  | request (k : RequestKind)
  | speech (a : SpeechAction)
  | consoleWarn (msg : String)
deriving Repr, DecidableEq

/-- The speak function (App.tsx lines 66-101): cancel the synthesizer,
pick a voice for the language and gender hint, warn to the console when no
voice matches the language, then hand the utterance to the synthesizer. -/
def speak (voices : List Voice) (text lang : String) (gender : Gender) : List Effect :=
  if (langVoicesOf voices lang).isEmpty then
    [.speech .cancel,
     .consoleWarn ("No voice found for language: " ++ lang ++ ". Using browser default."),
     .speech (.utter text lang none)]
  else
    [.speech .cancel,
     .speech (.utter text lang (selectVoice voices lang gender))]

/-- The stored encoded image ( base64 payload plus mime type), as held in
the originalImage state variable. -/
structure EncodedImage where
  base64 : String
  mimeType : String
deriving Repr, DecidableEq

/-- The component state of App: the seven useState variables. -/
structure AppState where
  originalImage : Option EncodedImage
  displayImage : Option String
  prompt : String
  currentRole : Option String
  isLoading : Bool
  error : Option String
  voices : List Voice
deriving Repr, DecidableEq

/-- A data URL built as in the source: data:mime;base64,payload. -/
def dataUrl (mimeType base64 : String) : String :=
  "data:" ++ mimeType ++ ";base64," ++ base64

/-- Outcome of the hosted image-transform request: the request threw, or it
returned and candidates[0]?.content?.parts[0]?.inlineData is the given
optional image. -/
inductive TransformOutcome where
  | thrown
  | ok (inlineData : Option EncodedImage)

/-- Outcome of JSON.parse on the processed chat response followed by
destructuring into language and response fields; fail covers a parse
exception, ok carries the two fields (an absent or empty response field is
modelled as the empty string, which is equally falsy in the source). -/
inductive ParseOutcome where
  | fail
  | ok (language : String) (textResponse : String)

/-- Outcome of the hosted chat request: the request threw, or it returned
response.text together with the JSON.parse oracle applied to the processed
string. -/
inductive ChatOutcome where
  | thrown
  | ok (text : String) (parse : String → ParseOutcome)

/-- The environment a submission runs against: the outcomes of whichever
hosted calls the branch taken performs. -/
structure Env where
  transform : TransformOutcome
  chat : ChatOutcome

/-- jsonString of handleSubmit line 222: strip a three-backtick json fence
when present. -/
def jsonStringOf (responseText : String) : String :=
  if jsStartsWith responseText "```json" then jsTrim (sliceSeven responseText)
  else responseText

/-- The handleSubmit handler (App.tsx lines 142-251) as a state
transformer.  The guard (blank prompt or no image) sets an error and stops.
Otherwise loading is set, the error cleared, the prompt cleared, and the
branch on currentRole runs: the image transform (role being null) or the
chat turn; every branch ends by clearing the loading flag (the finally
block). -/
def handleSubmit (s : AppState) (env : Env) : AppState × List Effect :=
  match s.originalImage with
  | none => ({ s with error := some "Please provide a role or a message." }, [])
  | some _ =>
    if jsTrim s.prompt == "" then
      ({ s with error := some "Please provide a role or a message." }, [])
    else
      let currentPrompt := s.prompt
      let s1 : AppState := { s with isLoading := true, error := none, prompt := "" }
      match s.currentRole with
      | none =>
        match env.transform with
        | .thrown =>
          ({ s1 with isLoading := false,
                     error := some "An error occurred while generating the response. Please try again.",
                     prompt := currentPrompt },
           [.setLoading true, .request .transform, .setLoading false])
        | .ok none =>
          ({ s1 with isLoading := false,
                     error := some "Failed to transform the image. Please try a different role.",
                     prompt := currentPrompt },
           [.setLoading true, .request .transform, .setLoading false])
        | .ok (some inlineData) =>
          ({ s1 with isLoading := false,
                     displayImage := some (dataUrl inlineData.mimeType inlineData.base64),
                     currentRole := some currentPrompt },
           [.setLoading true, .request .transform, .setLoading false])
      | some currentRole =>
        let gender := genderOf currentRole
        match env.chat with
        | .thrown =>
          ({ s1 with isLoading := false,
                     error := some "An error occurred while generating the response. Please try again.",
                     prompt := currentPrompt },
           [.setLoading true, .request .chat, .setLoading false])
        | .ok text parse =>
          let responseText := jsTrim text
          match parse (jsonStringOf responseText) with
          | .ok language textResponse =>
            if textResponse == "" then
              ({ s1 with isLoading := false,
                         error := some "I\x27m sorry, I couldn\x27t think of a response.",
                         prompt := currentPrompt },
               [.setLoading true, .request .chat, .setLoading false])
            else
              ({ s1 with isLoading := false },
               [.setLoading true, .request .chat] ++
                 speak s.voices textResponse language gender ++ [.setLoading false])
          | .fail =>
            if responseText == "" then
              ({ s1 with isLoading := false,
                         error := some "I\x27m sorry, I received an invalid response.",
                         prompt := currentPrompt },
               [.setLoading true, .request .chat, .setLoading false])
            else
              ({ s1 with isLoading := false },
               [.setLoading true, .request .chat] ++
                 speak s.voices responseText "en-US" gender ++ [.setLoading false])

/-- An uploaded image file as the handler consumes it: the mime type of the
file and the base64 payload FileReader produces from it. -/
structure FileUpload where
  base64 : String
  mimeType : String
deriving Repr, DecidableEq

/-- Whether the FileReader read succeeds (onloadend) or errors (onerror). -/
inductive ReadOutcome where
  | ok
  | err

/-- The handleImageChange handler (App.tsx lines 104-126): without a file
nothing happens; with one, error, currentRole and prompt are cleared, then
the read stores the encoded image and display URL, or on a read error sets
an error message. -/
def handleImageChange (s : AppState) (file : Option FileUpload) (read : ReadOutcome) : AppState :=
  match file with
  | none => s
  | some f =>
    let s1 : AppState := { s with error := none, currentRole := none, prompt := "" }
    match read with
    | .ok =>
      { s1 with originalImage := some ⟨f.base64, f.mimeType⟩,
                displayImage := some (dataUrl f.mimeType f.base64) }
    | .err => { s1 with error := some "Failed to read the image file." }

/-- The handleRoleReset handler (App.tsx lines 133-139): clear the role and
error, and restore the display image from the stored original when there is
one. -/
def handleRoleReset (s : AppState) : AppState :=
  let s1 : AppState := { s with currentRole := none, error := none }
  match s.originalImage with
  | some img => { s1 with displayImage := some (dataUrl img.mimeType img.base64) }
  | none => s1

/-- The disabled attribute of the text input (App.tsx line 292). -/
def inputDisabled (s : AppState) : Bool := s.isLoading

/-- The disabled attribute of the submit button (App.tsx line 296). -/
def submitDisabled (s : AppState) : Bool := s.isLoading

/-- The roleVoices table of the proxy server: role to voice identifier. -/
def roleVoices : String → Option String
  | "king" => some "male_deep_indian"
  | "police" => some "male_strict"
  | "farmer" => some "male_simple"
  | "doctor" => some "male_doctor"
  | "queen" => some "female_royal"
  | "teacher" => some "female_teacher"
  | "dancer" => some "female_excited"
  | "singer" => some "female_singer"
  | _ => none

/-- Body of a POST /api/talk request; role is optional (the handler uses
role?.toLowerCase()). -/
structure TalkBody where
  text : String
  role : Option String
deriving Repr, DecidableEq

/-- The voice identifier the proxy forwards:
roleVoices[role?.toLowerCase()] with default_voice as fallback. -/
def talkVoiceId (role : Option String) : String :=
  (match role with
   | some r => roleVoices (jsToLower r)
   | none => none).getD "default_voice"

/-- The script part of the request the proxy forwards to the third-party
talking-head API: input text and voice identifier. -/
structure DidRequest where
  input : String
  voice_id : String
deriving Repr, DecidableEq

/-- Outcome of the forwarded fetch plus response.json(): a throw anywhere
in the try block, or the JSON value the third-party API returned (kept
opaque as a string). -/
inductive FetchOutcome where
  | thrown
  | ok (json : String)

/-- What the proxy responds with. -/
inductive TalkResponseBody where
  | upstream (json : String)
  | errorObj
deriving Repr, DecidableEq

/-- An HTTP response from the proxy. -/
structure HttpResponse where
  status : Nat
  body : TalkResponseBody
deriving Repr, DecidableEq

/-- The POST /api/talk handler: build the forwarded request from the body,
send it, and relay the upstream JSON with status 200, or answer 500 with an
error object when anything throws.  Returns the response together with the
forwarded request. -/
def handleTalk (body : TalkBody) (fetch : DidRequest → FetchOutcome) :
    HttpResponse × DidRequest :=
  let req : DidRequest := ⟨body.text, talkVoiceId body.role⟩
  match fetch req with
  | .ok json => (⟨200, .upstream json⟩, req)
  | .thrown => (⟨500, .errorObj⟩, req)

/-- The network requests occurring in an effect trace, in order. -/
def requestsOf (effs : List Effect) : List RequestKind :=
  effs.filterMap (fun e => match e with | .request k => some k | _ => none)

/-- Number of utterances handed to the synthesizer in a trace. -/
def utterCount (effs : List Effect) : Nat :=
  effs.countP (fun e => match e with | .speech (.utter ..) => true | _ => false)

/-- Helper for serialized: scans a trace keeping whether a cancel has
happened since the last utterance. -/
def serializedGo (canceled : Bool) : List Effect → Bool
  | [] => true
  | .speech .cancel :: rest => serializedGo true rest
  | .speech (.utter ..) :: rest => canceled && serializedGo false rest
  | _ :: rest => serializedGo canceled rest

/-- Every utterance in the trace is preceded by a cancel issued after any
earlier utterance, so at most one utterance is queued at a time. -/
def serialized (effs : List Effect) : Bool :=
  serializedGo false effs

theorem handleSubmit_guard_fail (s : AppState) (env : Env)
    (h : jsTrim s.prompt = "" ∨ s.originalImage = none) :
    handleSubmit s env =
      ({ s with error := some "Please provide a role or a message." }, []) := by
  rcases h with h | h
  · rcases hoi : s.originalImage with _ | img
    · simp [handleSubmit, hoi]
    · simp [handleSubmit, hoi, h]
  · simp [handleSubmit, h]

theorem handleSubmit_transform_thrown (s : AppState) (env : Env) (img : EncodedImage)
    (hoi : s.originalImage = some img) (hp : jsTrim s.prompt ≠ "")
    (hr : s.currentRole = none) (ht : env.transform = TransformOutcome.thrown) :
    handleSubmit s env =
      ({ s with isLoading := false,
                error := some "An error occurred while generating the response. Please try again.",
                prompt := s.prompt },
       [.setLoading true, .request .transform, .setLoading false]) := by
  have hp' : (jsTrim s.prompt == "") = false := by simpa using hp
  simp [handleSubmit, hoi, hp', hr, ht]

theorem handleSubmit_transform_noImage (s : AppState) (env : Env) (img : EncodedImage)
    (hoi : s.originalImage = some img) (hp : jsTrim s.prompt ≠ "")
    (hr : s.currentRole = none) (ht : env.transform = TransformOutcome.ok none) :
    handleSubmit s env =
      ({ s with isLoading := false,
                error := some "Failed to transform the image. Please try a different role.",
                prompt := s.prompt },
       [.setLoading true, .request .transform, .setLoading false]) := by
  have hp' : (jsTrim s.prompt == "") = false := by simpa using hp
  simp [handleSubmit, hoi, hp', hr, ht]

theorem handleSubmit_transform_success (s : AppState) (env : Env) (img d : EncodedImage)
    (hoi : s.originalImage = some img) (hp : jsTrim s.prompt ≠ "")
    (hr : s.currentRole = none) (ht : env.transform = TransformOutcome.ok (some d)) :
    handleSubmit s env =
      ({ s with isLoading := false, error := none, prompt := "",
                displayImage := some (dataUrl d.mimeType d.base64),
                currentRole := some s.prompt },
       [.setLoading true, .request .transform, .setLoading false]) := by
  have hp' : (jsTrim s.prompt == "") = false := by simpa using hp
  simp [handleSubmit, hoi, hp', hr, ht]

theorem handleSubmit_chat_thrown (s : AppState) (env : Env) (img : EncodedImage) (r : String)
    (hoi : s.originalImage = some img) (hp : jsTrim s.prompt ≠ "")
    (hr : s.currentRole = some r) (hc : env.chat = ChatOutcome.thrown) :
    handleSubmit s env =
      ({ s with isLoading := false,
                error := some "An error occurred while generating the response. Please try again.",
                prompt := s.prompt },
       [.setLoading true, .request .chat, .setLoading false]) := by
  have hp' : (jsTrim s.prompt == "") = false := by simpa using hp
  simp [handleSubmit, hoi, hp', hr, hc]

theorem handleSubmit_chat_success (s : AppState) (env : Env) (img : EncodedImage)
    (r text language textResponse : String) (parse : String → ParseOutcome)
    (hoi : s.originalImage = some img) (hp : jsTrim s.prompt ≠ "")
    (hr : s.currentRole = some r) (hc : env.chat = ChatOutcome.ok text parse)
    (hP : parse (jsonStringOf (jsTrim text)) = ParseOutcome.ok language textResponse)
    (hne : textResponse ≠ "") :
    handleSubmit s env =
      ({ s with isLoading := false, error := none, prompt := "" },
       [.setLoading true, .request .chat] ++
         speak s.voices textResponse language (genderOf r) ++ [.setLoading false]) := by
  have hp' : (jsTrim s.prompt == "") = false := by simpa using hp
  have hne' : (textResponse == "") = false := by simpa using hne
  simp [handleSubmit, hoi, hp', hr, hc, hP, hne']

theorem handleSubmit_chat_emptyResponse (s : AppState) (env : Env) (img : EncodedImage)
    (r text language : String) (parse : String → ParseOutcome)
    (hoi : s.originalImage = some img) (hp : jsTrim s.prompt ≠ "")
    (hr : s.currentRole = some r) (hc : env.chat = ChatOutcome.ok text parse)
    (hP : parse (jsonStringOf (jsTrim text)) = ParseOutcome.ok language "") :
    handleSubmit s env =
      ({ s with isLoading := false,
                error := some "I\x27m sorry, I couldn\x27t think of a response.",
                prompt := s.prompt },
       [.setLoading true, .request .chat, .setLoading false]) := by
  have hp' : (jsTrim s.prompt == "") = false := by simpa using hp
  simp [handleSubmit, hoi, hp', hr, hc, hP]

theorem handleSubmit_chat_fallback (s : AppState) (env : Env) (img : EncodedImage)
    (r text : String) (parse : String → ParseOutcome)
    (hoi : s.originalImage = some img) (hp : jsTrim s.prompt ≠ "")
    (hr : s.currentRole = some r) (hc : env.chat = ChatOutcome.ok text parse)
    (hP : parse (jsonStringOf (jsTrim text)) = ParseOutcome.fail)
    (hne : jsTrim text ≠ "") :
    handleSubmit s env =
      ({ s with isLoading := false, error := none, prompt := "" },
       [.setLoading true, .request .chat] ++
         speak s.voices (jsTrim text) "en-US" (genderOf r) ++ [.setLoading false]) := by
  have hp' : (jsTrim s.prompt == "") = false := by simpa using hp
  have hne' : (jsTrim text == "") = false := by simpa using hne
  simp [handleSubmit, hoi, hp', hr, hc, hP, hne']

theorem handleSubmit_chat_emptyRaw (s : AppState) (env : Env) (img : EncodedImage)
    (r text : String) (parse : String → ParseOutcome)
    (hoi : s.originalImage = some img) (hp : jsTrim s.prompt ≠ "")
    (hr : s.currentRole = some r) (hc : env.chat = ChatOutcome.ok text parse)
    (hP : parse (jsonStringOf (jsTrim text)) = ParseOutcome.fail)
    (hemp : jsTrim text = "") :
    handleSubmit s env =
      ({ s with isLoading := false,
                error := some "I\x27m sorry, I received an invalid response.",
                prompt := s.prompt },
       [.setLoading true, .request .chat, .setLoading false]) := by
  have hp' : (jsTrim s.prompt == "") = false := by simpa using hp
  rw [hemp] at hP
  simp [handleSubmit, hoi, hp', hr, hc, hP, hemp]

theorem getD_head_mem (g0 : Voice) (grest : List Voice) (p : Voice → Bool) :
    (((g0 :: grest).find? p).getD g0) ∈ g0 :: grest := by
  rcases hn : (g0 :: grest).find? p with _ | x
  · simp
  · simpa using List.mem_of_find?_eq_some hn

theorem fallback_mem (v0 : Voice) (vrest : List Voice) :
    ((((v0 :: vrest).find? (fun v => v.isDefault)).orElse
       (fun _ => (v0 :: vrest).find? (fun v => !v.localService))).getD v0)
      ∈ v0 :: vrest := by
  rcases hd : (v0 :: vrest).find? (fun v => v.isDefault) with _ | w
  · rcases hn : (v0 :: vrest).find? (fun v => !v.localService) with _ | w
    · simp [hd, hn, Option.orElse]
    · simp only [hd, hn, Option.orElse]
      simpa using List.mem_of_find?_eq_some hn
  · simp only [hd, Option.orElse]
    simpa using List.mem_of_find?_eq_some hd

theorem selectVoice_mem (voices : List Voice) (lang : String) (g : Gender) (v : Voice)
    (h : selectVoice voices lang g = some v) : v ∈ langVoicesOf voices lang := by
  rcases hl : langVoicesOf voices lang with _ | ⟨v0, vrest⟩
  · simp [selectVoice, hl] at h
  · rw [selectVoice, hl] at h
    simp only at h
    cases g
    case neutral =>
      simp only [Option.some.injEq] at h
      rw [← h]
      exact fallback_mem v0 vrest
    case male =>
      rcases hf : (v0 :: vrest).filter (genderMatches Gender.male) with _ | ⟨g0, grest⟩
      · simp only [hf, Option.some.injEq] at h
        rw [← h]
        exact fallback_mem v0 vrest
      · simp only [hf, Option.some.injEq] at h
        have hmem : v ∈ (v0 :: vrest).filter (genderMatches Gender.male) := by
          rw [hf, ← h]; exact getD_head_mem g0 grest _
        exact (List.mem_filter.mp hmem).1
    case female =>
      rcases hf : (v0 :: vrest).filter (genderMatches Gender.female) with _ | ⟨g0, grest⟩
      · simp only [hf, Option.some.injEq] at h
        rw [← h]
        exact fallback_mem v0 vrest
      · simp only [hf, Option.some.injEq] at h
        have hmem : v ∈ (v0 :: vrest).filter (genderMatches Gender.female) := by
          rw [hf, ← h]; exact getD_head_mem g0 grest _
        exact (List.mem_filter.mp hmem).1

theorem selectVoice_gender (voices : List Voice) (lang : String) (g : Gender)
    (hg : g ≠ Gender.neutral) (w : Voice) (hw : w ∈ langVoicesOf voices lang)
    (hgw : genderMatches g w = true) :
    ∃ v, selectVoice voices lang g = some v ∧ genderMatches g v = true := by
  rcases hl : langVoicesOf voices lang with _ | ⟨v0, vrest⟩
  · rw [hl] at hw; cases hw
  · rw [hl] at hw
    have hwf : w ∈ (v0 :: vrest).filter (genderMatches g) :=
      List.mem_filter.mpr ⟨hw, hgw⟩
    rcases hf : (v0 :: vrest).filter (genderMatches g) with _ | ⟨g0, grest⟩
    · rw [hf] at hwf; cases hwf
    · have hmem : ((g0 :: grest).find? (fun v => !v.localService)).getD g0
          ∈ (v0 :: vrest).filter (genderMatches g) := by
        rw [hf]; exact getD_head_mem g0 grest _
      refine ⟨((g0 :: grest).find? (fun v => !v.localService)).getD g0, ?_, ?_⟩
      · cases g
        case neutral => exact absurd rfl hg
        case male =>
          rw [selectVoice, hl]
          simp only [hf]
        case female =>
          rw [selectVoice, hl]
          simp only [hf]
      · exact (List.mem_filter.mp hmem).2

theorem langVoicesOf_spec (voices : List Voice) (lang : String) (v : Voice) :
    v ∈ langVoicesOf voices lang ↔ v ∈ voices ∧ langMatches lang v = true :=
  List.mem_filter

theorem selectVoice_none_of_empty (voices : List Voice) (lang : String) (g : Gender)
    (h : langVoicesOf voices lang = []) : selectVoice voices lang g = none := by
  simp [selectVoice, h]

theorem speak_last (voices : List Voice) (text lang : String) (g : Gender) :
    (speak voices text lang g).getLast? =
      some (Effect.speech (SpeechAction.utter text lang (selectVoice voices lang g))) := by
  by_cases h : (langVoicesOf voices lang).isEmpty
  · have : selectVoice voices lang g = none :=
      selectVoice_none_of_empty _ _ _ (List.isEmpty_iff.mp h)
    simp [speak, h, this]
  · simp [speak, h]

theorem requestsOf_speak (voices : List Voice) (text lang : String) (g : Gender) :
    requestsOf (speak voices text lang g) = [] := by
  by_cases h : (langVoicesOf voices lang).isEmpty <;> simp [speak, h, requestsOf]

theorem requestsOf_append (l1 l2 : List Effect) :
    requestsOf (l1 ++ l2) = requestsOf l1 ++ requestsOf l2 :=
  List.filterMap_append _ _ _

theorem serializedGo_speak (b : Bool) (voices : List Voice) (text lang : String) (g : Gender) :
    serializedGo b (speak voices text lang g ++ [Effect.setLoading false]) = true := by
  by_cases h : (langVoicesOf voices lang).isEmpty <;> simp [speak, h, serializedGo]

theorem handleSubmit_originalImage (s : AppState) (env : Env) :
    (handleSubmit s env).1.originalImage = s.originalImage := by
  rcases env with ⟨tr, ch⟩
  rcases hoi : s.originalImage with _ | img
  · simp [handleSubmit, hoi]
  · by_cases hp : (jsTrim s.prompt == "") = true
    · simp [handleSubmit, hoi, hp]
    · rcases hr : s.currentRole with _ | r
      · cases tr with
        | thrown => simp [handleSubmit, hoi, hp, hr]
        | ok inl => cases inl <;> simp [handleSubmit, hoi, hp, hr]
      · cases ch with
        | thrown => simp [handleSubmit, hoi, hp, hr]
        | ok text parse =>
          rcases hP : parse (jsonStringOf (jsTrim text)) with _ | ⟨language, textResponse⟩
          · by_cases hemp : (jsTrim text == "") = true <;>
              simp [handleSubmit, hoi, hp, hr, hP, hemp]
          · by_cases hemp : (textResponse == "") = true <;>
              simp [handleSubmit, hoi, hp, hr, hP, hemp]

theorem handleSubmit_requests_transform (s : AppState) (env : Env) (img : EncodedImage)
    (hoi : s.originalImage = some img) (hp : jsTrim s.prompt ≠ "")
    (hr : s.currentRole = none) :
    requestsOf (handleSubmit s env).2 = [RequestKind.transform] := by
  rcases ht : env.transform with _ | inl
  · rw [handleSubmit_transform_thrown s env img hoi hp hr ht]; simp [requestsOf]
  · rcases inl with _ | d
    · rw [handleSubmit_transform_noImage s env img hoi hp hr ht]; simp [requestsOf]
    · rw [handleSubmit_transform_success s env img d hoi hp hr ht]; simp [requestsOf]

theorem handleSubmit_requests_chat (s : AppState) (env : Env) (img : EncodedImage) (r : String)
    (hoi : s.originalImage = some img) (hp : jsTrim s.prompt ≠ "")
    (hr : s.currentRole = some r) :
    requestsOf (handleSubmit s env).2 = [RequestKind.chat] := by
  rcases hc : env.chat with _ | ⟨text, parse⟩
  · rw [handleSubmit_chat_thrown s env img r hoi hp hr hc]; simp [requestsOf]
  · rcases hP : parse (jsonStringOf (jsTrim text)) with _ | ⟨language, textResponse⟩
    · by_cases hemp : jsTrim text = ""
      · rw [handleSubmit_chat_emptyRaw s env img r text parse hoi hp hr hc hP hemp]
        simp [requestsOf]
      · rw [handleSubmit_chat_fallback s env img r text parse hoi hp hr hc hP hemp]
        rw [requestsOf_append, requestsOf_append, requestsOf_speak]
        simp [requestsOf]
    · by_cases hemp : textResponse = ""
      · rw [hemp] at hP
        rw [handleSubmit_chat_emptyResponse s env img r text language parse hoi hp hr hc hP]
        simp [requestsOf]
      · rw [handleSubmit_chat_success s env img r text language textResponse parse hoi hp hr hc
          hP hemp]
        rw [requestsOf_append, requestsOf_append, requestsOf_speak]
        simp [requestsOf]

/-- C1: a form submission that passes the input guard (non-blank prompt and
an uploaded image) dispatches on the conversation state: with currentRole
null it issues exactly the image-transform request and on success sets
currentRole to the submitted prompt; with currentRole non-null it issues
exactly the chat-turn request; no submission issues both. -/
theorem C1_submit_dispatch (s : AppState) (env : Env) (img : EncodedImage)
    (himg : s.originalImage = some img) (hp : jsTrim s.prompt ≠ "") :
    (s.currentRole = none →
       requestsOf (handleSubmit s env).2 = [RequestKind.transform] ∧
       ∀ d, env.transform = TransformOutcome.ok (some d) →
         (handleSubmit s env).1.currentRole = some s.prompt) ∧
    (∀ r, s.currentRole = some r →
       requestsOf (handleSubmit s env).2 = [RequestKind.chat]) := by
  constructor
  · intro hr
    refine ⟨handleSubmit_requests_transform s env img himg hp hr, ?_⟩
    intro d ht
    rw [handleSubmit_transform_success s env img d himg hp hr ht]
  · intro r hr
    exact handleSubmit_requests_chat s env img r himg hp hr

theorem C1_submit_dispatch_witness :
    requestsOf (handleSubmit
        ⟨some ⟨"QQ", "image/png"⟩, some "d", "queen", none, false, none, []⟩
        ⟨TransformOutcome.ok (some ⟨"NN", "image/jpeg"⟩), ChatOutcome.thrown⟩).2
      = [RequestKind.transform] ∧
    (handleSubmit
        ⟨some ⟨"QQ", "image/png"⟩, some "d", "queen", none, false, none, []⟩
        ⟨TransformOutcome.ok (some ⟨"NN", "image/jpeg"⟩), ChatOutcome.thrown⟩).1.currentRole
      = some "queen" := by
  have h := C1_submit_dispatch
    ⟨some ⟨"QQ", "image/png"⟩, some "d", "queen", none, false, none, []⟩
    ⟨TransformOutcome.ok (some ⟨"NN", "image/jpeg"⟩), ChatOutcome.thrown⟩
    ⟨"QQ", "image/png"⟩ rfl (by decide)
  exact ⟨(h.1 rfl).1, (h.1 rfl).2 ⟨"NN", "image/jpeg"⟩ rfl⟩

/-- C3: for every POST /api/talk body, the proxy forwards exactly the body
text together with the voice identifier obtained from the lowercased role
through the static roleVoices table (default_voice when absent or
unmapped), relays the upstream JSON verbatim with status 200, and answers
status 500 with an error object on any failure. -/
theorem C3_talk_proxy (body : TalkBody) (fetch : DidRequest → FetchOutcome) :
    ((handleTalk body fetch).2 = ⟨body.text, talkVoiceId body.role⟩) ∧
    (∀ r, body.role = some r →
       talkVoiceId body.role = (roleVoices (jsToLower r)).getD "default_voice") ∧
    (body.role = none → talkVoiceId body.role = "default_voice") ∧
    (∀ json, fetch ⟨body.text, talkVoiceId body.role⟩ = FetchOutcome.ok json →
       (handleTalk body fetch).1 = ⟨200, TalkResponseBody.upstream json⟩) ∧
    (fetch ⟨body.text, talkVoiceId body.role⟩ = FetchOutcome.thrown →
       (handleTalk body fetch).1 = ⟨500, TalkResponseBody.errorObj⟩) := by
  refine ⟨?_, ?_, ?_, ?_, ?_⟩
  · rcases hf : fetch ⟨body.text, talkVoiceId body.role⟩ with _ | json <;>
      simp [handleTalk, hf]
  · intro r hr
    simp [talkVoiceId, hr]
  · intro hr
    simp [talkVoiceId, hr]
  · intro json hf
    simp [handleTalk, hf]
  · intro hf
    simp [handleTalk, hf]

theorem C3_talk_proxy_witness :
    (handleTalk ⟨"hello", some "King"⟩ (fun _ => FetchOutcome.ok "UPSTREAM")).1
      = ⟨200, TalkResponseBody.upstream "UPSTREAM"⟩ ∧
    (handleTalk ⟨"hello", some "King"⟩ (fun _ => FetchOutcome.ok "UPSTREAM")).2
      = ⟨"hello", "male_deep_indian"⟩ := by
  have h := C3_talk_proxy ⟨"hello", some "King"⟩ (fun _ => FetchOutcome.ok "UPSTREAM")
  refine ⟨h.2.2.2.1 "UPSTREAM" rfl, ?_⟩
  rw [h.1]
  decide

/-- C10: a submission with a blank prompt or no uploaded image sets the
error message and changes nothing else, issuing no request; a submission
passing the guard issues exactly one request. -/
theorem C10_submit_guard (s : AppState) (env : Env) :
    ((jsTrim s.prompt = "" ∨ s.originalImage = none) →
       handleSubmit s env =
         ({ s with error := some "Please provide a role or a message." }, []) ∧
       (handleSubmit s env).1.currentRole = s.currentRole ∧
       (handleSubmit s env).1.originalImage = s.originalImage ∧
       (handleSubmit s env).1.displayImage = s.displayImage ∧
       (handleSubmit s env).1.prompt = s.prompt ∧
       (handleSubmit s env).1.isLoading = s.isLoading ∧
       requestsOf (handleSubmit s env).2 = []) ∧
    (∀ img, s.originalImage = some img → jsTrim s.prompt ≠ "" →
       (requestsOf (handleSubmit s env).2).length = 1) := by
  constructor
  · intro h
    rw [handleSubmit_guard_fail s env h]
    simp [requestsOf]
  · intro img himg hp
    rcases hr : s.currentRole with _ | r
    · rw [handleSubmit_requests_transform s env img himg hp hr]
      rfl
    · rw [handleSubmit_requests_chat s env img r himg hp hr]
      rfl

theorem C10_submit_guard_witness :
    handleSubmit ⟨some ⟨"QQ", "image/png"⟩, some "d", "   ", none, false, none, []⟩
        ⟨TransformOutcome.thrown, ChatOutcome.thrown⟩
      = (⟨some ⟨"QQ", "image/png"⟩, some "d", "   ", none, false,
          some "Please provide a role or a message.", []⟩, []) ∧
    (requestsOf (handleSubmit
        ⟨some ⟨"QQ", "image/png"⟩, some "d", "hi", none, false, none, []⟩
        ⟨TransformOutcome.thrown, ChatOutcome.thrown⟩).2).length = 1 := by
  constructor
  · exact ((C10_submit_guard
      ⟨some ⟨"QQ", "image/png"⟩, some "d", "   ", none, false, none, []⟩
      ⟨TransformOutcome.thrown, ChatOutcome.thrown⟩).1 (Or.inl (by decide))).1
  · exact (C10_submit_guard
      ⟨some ⟨"QQ", "image/png"⟩, some "d", "hi", none, false, none, []⟩
      ⟨TransformOutcome.thrown, ChatOutcome.thrown⟩).2 ⟨"QQ", "image/png"⟩ rfl (by decide)

/-- C4 counterexample: a concrete guard-passing submission whose image
transform succeeds (currentRole becomes the prompt and displayImage is
replaced) while originalImage keeps the originally uploaded image, which
differs from the transformed one — so originalImage is not replaced on a
successful transform, contrary to the claim. -/
theorem C4_counterexample :
    (handleSubmit ⟨some ⟨"OLD", "image/png"⟩, some "d", "queen", none, false, none, []⟩
        ⟨TransformOutcome.ok (some ⟨"NEW", "image/jpeg"⟩), ChatOutcome.thrown⟩).1.currentRole
      = some "queen" ∧
    (handleSubmit ⟨some ⟨"OLD", "image/png"⟩, some "d", "queen", none, false, none, []⟩
        ⟨TransformOutcome.ok (some ⟨"NEW", "image/jpeg"⟩), ChatOutcome.thrown⟩).1.displayImage
      = some (dataUrl "image/jpeg" "NEW") ∧
    (handleSubmit ⟨some ⟨"OLD", "image/png"⟩, some "d", "queen", none, false, none, []⟩
        ⟨TransformOutcome.ok (some ⟨"NEW", "image/jpeg"⟩), ChatOutcome.thrown⟩).1.originalImage
      = some ⟨"OLD", "image/png"⟩ ∧
    (⟨"OLD", "image/png"⟩ : EncodedImage) ≠ ⟨"NEW", "image/jpeg"⟩ := by
  decide

/-- C4 amended: the stored encoded image originalImage is produced by file
upload and replaced on each new upload; a successful image transform leaves
originalImage unchanged and instead replaces only displayImage with the
transformed image data URL. -/
theorem C4_original_image (s : AppState) (env : Env) (f : FileUpload)
    (d img : EncodedImage) :
    ((handleImageChange s (some f) ReadOutcome.ok).originalImage
       = some ⟨f.base64, f.mimeType⟩) ∧
    ((handleSubmit s env).1.originalImage = s.originalImage) ∧
    (s.originalImage = some img → s.currentRole = none → jsTrim s.prompt ≠ "" →
       env.transform = TransformOutcome.ok (some d) →
       (handleSubmit s env).1.displayImage = some (dataUrl d.mimeType d.base64)) := by
  refine ⟨rfl, handleSubmit_originalImage s env, ?_⟩
  intro himg hr hp ht
  rw [handleSubmit_transform_success s env img d himg hp hr ht]

theorem C4_original_image_witness :
    (handleImageChange ⟨none, none, "", none, false, none, []⟩
        (some ⟨"UP", "image/png"⟩) ReadOutcome.ok).originalImage
      = some ⟨"UP", "image/png"⟩ ∧
    (handleSubmit ⟨some ⟨"OLD2", "image/png"⟩, some "d", "king", none, false, none, []⟩
        ⟨TransformOutcome.ok (some ⟨"NEW2", "image/webp"⟩), ChatOutcome.thrown⟩).1.displayImage
      = some (dataUrl "image/webp" "NEW2") := by
  have h := C4_original_image
    ⟨some ⟨"OLD2", "image/png"⟩, some "d", "king", none, false, none, []⟩
    ⟨TransformOutcome.ok (some ⟨"NEW2", "image/webp"⟩), ChatOutcome.thrown⟩
    ⟨"UP", "image/png"⟩ ⟨"NEW2", "image/webp"⟩ ⟨"OLD2", "image/png"⟩
  have h2 := C4_original_image
    ⟨none, none, "", none, false, none, []⟩
    ⟨TransformOutcome.thrown, ChatOutcome.thrown⟩
    ⟨"UP", "image/png"⟩ ⟨"NEW2", "image/webp"⟩ ⟨"OLD2", "image/png"⟩
  exact ⟨h2.1, h.2.2 rfl rfl (by decide) rfl⟩

/-- C8: no transform or chat turn ever modifies the stored original image:
after any sequence of submissions originalImage is what it was, and
handleRoleReset puts currentRole back to null and restores displayImage to
the data URL built from the unchanged originalImage. -/
theorem C8_role_reset (s : AppState) (envs : List Env) (img : EncodedImage) :
    ((envs.foldl (fun st e => (handleSubmit st e).1) s).originalImage
       = s.originalImage) ∧
    ((handleRoleReset s).currentRole = none) ∧
    ((handleRoleReset s).originalImage = s.originalImage) ∧
    (s.originalImage = some img →
       (handleRoleReset s).displayImage = some (dataUrl img.mimeType img.base64)) := by
  refine ⟨?_, ?_, ?_, ?_⟩
  · induction envs generalizing s with
    | nil => rfl
    | cons e es ih =>
      simp only [List.foldl_cons]
      rw [ih ((handleSubmit s e).1), handleSubmit_originalImage]
  · rcases hoi : s.originalImage with _ | i <;> simp [handleRoleReset, hoi]
  · rcases hoi : s.originalImage with _ | i <;> simp [handleRoleReset, hoi]
  · intro himg
    simp [handleRoleReset, himg]

theorem C8_role_reset_witness :
    ((([⟨TransformOutcome.ok (some ⟨"T1", "image/png"⟩), ChatOutcome.thrown⟩,
        ⟨TransformOutcome.ok (some ⟨"T2", "image/png"⟩), ChatOutcome.thrown⟩] :
        List Env).foldl (fun st e => (handleSubmit st e).1)
        ⟨some ⟨"ORIG", "image/png"⟩, some "d", "queen", none, false, none, []⟩).originalImage
      = some ⟨"ORIG", "image/png"⟩) ∧
    (handleRoleReset
        ⟨some ⟨"ORIG", "image/png"⟩, some "t", "", some "queen", false, none, []⟩).displayImage
      = some (dataUrl "image/png" "ORIG") := by
  have h := C8_role_reset
    ⟨some ⟨"ORIG", "image/png"⟩, some "d", "queen", none, false, none, []⟩
    [⟨TransformOutcome.ok (some ⟨"T1", "image/png"⟩), ChatOutcome.thrown⟩,
     ⟨TransformOutcome.ok (some ⟨"T2", "image/png"⟩), ChatOutcome.thrown⟩]
    ⟨"ORIG", "image/png"⟩
  have h2 := C8_role_reset
    ⟨some ⟨"ORIG", "image/png"⟩, some "t", "", some "queen", false, none, []⟩
    [] ⟨"ORIG", "image/png"⟩
  exact ⟨h.1, h2.2.2.2 rfl⟩

/-- C9: uploading a new image file resets the conversation: after a
successful handleImageChange the role, prompt and error are cleared and the
new encoded image stored, and the next guard-passing submission issues the
image-transform request. -/
theorem C9_upload_resets (s : AppState) (f : FileUpload) (env : Env) (p : String)
    (hp : jsTrim p ≠ "") :
    ((handleImageChange s (some f) ReadOutcome.ok).currentRole = none) ∧
    ((handleImageChange s (some f) ReadOutcome.ok).prompt = "") ∧
    ((handleImageChange s (some f) ReadOutcome.ok).error = none) ∧
    ((handleImageChange s (some f) ReadOutcome.ok).originalImage
       = some ⟨f.base64, f.mimeType⟩) ∧
    requestsOf (handleSubmit
        { handleImageChange s (some f) ReadOutcome.ok with prompt := p } env).2
      = [RequestKind.transform] := by
  refine ⟨rfl, rfl, rfl, rfl, ?_⟩
  exact handleSubmit_requests_transform _ env ⟨f.base64, f.mimeType⟩ rfl hp rfl

theorem C9_upload_resets_witness :
    ((handleImageChange ⟨some ⟨"OLD", "image/png"⟩, some "t", "leftover", some "king",
          false, some "old error", []⟩
        (some ⟨"UP2", "image/webp"⟩) ReadOutcome.ok).currentRole = none) ∧
    requestsOf (handleSubmit
        { handleImageChange ⟨some ⟨"OLD", "image/png"⟩, some "t", "leftover", some "king",
              false, some "old error", []⟩
            (some ⟨"UP2", "image/webp"⟩) ReadOutcome.ok with prompt := "wizard" }
        ⟨TransformOutcome.thrown, ChatOutcome.thrown⟩).2
      = [RequestKind.transform] := by
  have h := C9_upload_resets
    ⟨some ⟨"OLD", "image/png"⟩, some "t", "leftover", some "king", false, some "old error", []⟩
    ⟨"UP2", "image/webp"⟩ ⟨TransformOutcome.thrown, ChatOutcome.thrown⟩ "wizard" (by decide)
  exact ⟨h.1, h.2.2.2.2⟩

/-- C7: a guard-passing submission sets the loading flag before issuing its
single request and clears it when the request completes, whatever the
outcome; and the text input and submit button are disabled exactly while
the flag is set, so no new submission can start in between. -/
theorem C7_loading_serialization (s : AppState) (env : Env) (img : EncodedImage)
    (himg : s.originalImage = some img) (hp : jsTrim s.prompt ≠ "") :
    (∃ k mid, (handleSubmit s env).2 =
        Effect.setLoading true :: Effect.request k :: (mid ++ [Effect.setLoading false])) ∧
    ((handleSubmit s env).1.isLoading = false) ∧
    (∀ st : AppState, inputDisabled st = st.isLoading ∧ submitDisabled st = st.isLoading) := by
  refine ⟨?_, ?_, fun st => ⟨rfl, rfl⟩⟩
  · rcases hr : s.currentRole with _ | r
    · rcases ht : env.transform with _ | inl
      · exact ⟨.transform, [], by
          rw [handleSubmit_transform_thrown s env img himg hp hr ht]; rfl⟩
      · rcases inl with _ | d
        · exact ⟨.transform, [], by
            rw [handleSubmit_transform_noImage s env img himg hp hr ht]; rfl⟩
        · exact ⟨.transform, [], by
            rw [handleSubmit_transform_success s env img d himg hp hr ht]; rfl⟩
    · rcases hc : env.chat with _ | ⟨text, parse⟩
      · exact ⟨.chat, [], by rw [handleSubmit_chat_thrown s env img r himg hp hr hc]; rfl⟩
      · rcases hP : parse (jsonStringOf (jsTrim text)) with _ | ⟨language, textResponse⟩
        · by_cases hemp : jsTrim text = ""
          · exact ⟨.chat, [], by
              rw [handleSubmit_chat_emptyRaw s env img r text parse himg hp hr hc hP hemp]; rfl⟩
          · exact ⟨.chat, speak s.voices (jsTrim text) "en-US" (genderOf r), by
              rw [handleSubmit_chat_fallback s env img r text parse himg hp hr hc hP hemp]; rfl⟩
        · by_cases hemp : textResponse = ""
          · rw [hemp] at hP
            exact ⟨.chat, [], by
              rw [handleSubmit_chat_emptyResponse s env img r text language parse
                himg hp hr hc hP]; rfl⟩
          · exact ⟨.chat, speak s.voices textResponse language (genderOf r), by
              rw [handleSubmit_chat_success s env img r text language textResponse parse
                himg hp hr hc hP hemp]; rfl⟩
  · rcases hr : s.currentRole with _ | r
    · rcases ht : env.transform with _ | inl
      · rw [handleSubmit_transform_thrown s env img himg hp hr ht]
      · rcases inl with _ | d
        · rw [handleSubmit_transform_noImage s env img himg hp hr ht]
        · rw [handleSubmit_transform_success s env img d himg hp hr ht]
    · rcases hc : env.chat with _ | ⟨text, parse⟩
      · rw [handleSubmit_chat_thrown s env img r himg hp hr hc]
      · rcases hP : parse (jsonStringOf (jsTrim text)) with _ | ⟨language, textResponse⟩
        · by_cases hemp : jsTrim text = ""
          · rw [handleSubmit_chat_emptyRaw s env img r text parse himg hp hr hc hP hemp]
          · rw [handleSubmit_chat_fallback s env img r text parse himg hp hr hc hP hemp]
        · by_cases hemp : textResponse = ""
          · rw [hemp] at hP
            rw [handleSubmit_chat_emptyResponse s env img r text language parse
              himg hp hr hc hP]
          · rw [handleSubmit_chat_success s env img r text language textResponse parse
              himg hp hr hc hP hemp]

theorem C7_loading_serialization_witness :
    (∃ k mid, (handleSubmit
        ⟨some ⟨"QQ", "image/png"⟩, some "d", "queen", none, true, none, []⟩
        ⟨TransformOutcome.thrown, ChatOutcome.thrown⟩).2 =
        Effect.setLoading true :: Effect.request k :: (mid ++ [Effect.setLoading false])) ∧
    (handleSubmit ⟨some ⟨"QQ", "image/png"⟩, some "d", "queen", none, true, none, []⟩
        ⟨TransformOutcome.thrown, ChatOutcome.thrown⟩).1.isLoading = false := by
  have h := C7_loading_serialization
    ⟨some ⟨"QQ", "image/png"⟩, some "d", "queen", none, true, none, []⟩
    ⟨TransformOutcome.thrown, ChatOutcome.thrown⟩ ⟨"QQ", "image/png"⟩ rfl (by decide)
  exact ⟨h.1, h.2.1⟩

/-- C2 counterexample: a chat submission whose response is malformed (not
JSON) but non-empty ends with no error message and with the prompt field
left cleared rather than restored, refuting the claim that every
network/malformed-response/missing-voice failure sets a user-visible error
and restores the last input. -/
theorem C2_counterexample :
    (handleSubmit ⟨some ⟨"AA", "image/png"⟩, some "d", "hello", some "king",
        false, none, []⟩
      ⟨TransformOutcome.thrown, ChatOutcome.ok "not json" (fun _ => ParseOutcome.fail)⟩).1.error
      = none ∧
    (handleSubmit ⟨some ⟨"AA", "image/png"⟩, some "d", "hello", some "king",
        false, none, []⟩
      ⟨TransformOutcome.thrown, ChatOutcome.ok "not json" (fun _ => ParseOutcome.fail)⟩).1.prompt
      = "" ∧
    ("" : String) ≠ "hello" := by
  decide

/-- C2 amended: a thrown request, a transform response without an image, a
parsed chat response with an empty text, and an empty raw chat response
each set a user-visible error message and restore the last submitted input;
but a malformed (non-JSON) non-empty chat response is instead spoken as-is
with an en-US fallback, with no error and no restoration, and a missing
voice only logs a console warning and proceeds with the browser default
voice. -/
theorem C2_failure_modes (s : AppState) (env : Env) (img : EncodedImage)
    (himg : s.originalImage = some img) (hp : jsTrim s.prompt ≠ "") :
    (s.currentRole = none → env.transform = TransformOutcome.thrown →
       (handleSubmit s env).1.error =
         some "An error occurred while generating the response. Please try again." ∧
       (handleSubmit s env).1.prompt = s.prompt) ∧
    (∀ r, s.currentRole = some r → env.chat = ChatOutcome.thrown →
       (handleSubmit s env).1.error =
         some "An error occurred while generating the response. Please try again." ∧
       (handleSubmit s env).1.prompt = s.prompt) ∧
    (s.currentRole = none → env.transform = TransformOutcome.ok none →
       (handleSubmit s env).1.error =
         some "Failed to transform the image. Please try a different role." ∧
       (handleSubmit s env).1.prompt = s.prompt) ∧
    (∀ r text parse language, s.currentRole = some r →
       env.chat = ChatOutcome.ok text parse →
       parse (jsonStringOf (jsTrim text)) = ParseOutcome.ok language "" →
       (handleSubmit s env).1.error =
         some "I\x27m sorry, I couldn\x27t think of a response." ∧
       (handleSubmit s env).1.prompt = s.prompt) ∧
    (∀ r text parse, s.currentRole = some r → env.chat = ChatOutcome.ok text parse →
       parse (jsonStringOf (jsTrim text)) = ParseOutcome.fail → jsTrim text = "" →
       (handleSubmit s env).1.error =
         some "I\x27m sorry, I received an invalid response." ∧
       (handleSubmit s env).1.prompt = s.prompt) ∧
    (∀ r text parse, s.currentRole = some r → env.chat = ChatOutcome.ok text parse →
       parse (jsonStringOf (jsTrim text)) = ParseOutcome.fail → jsTrim text ≠ "" →
       (handleSubmit s env).1.error = none ∧
       (handleSubmit s env).1.prompt = "" ∧
       (handleSubmit s env).2 =
         [Effect.setLoading true, Effect.request RequestKind.chat] ++
           speak s.voices (jsTrim text) "en-US" (genderOf r) ++
           [Effect.setLoading false]) ∧
    (∀ voices text lang gender, langVoicesOf voices lang = [] →
       speak voices text lang gender =
         [Effect.speech SpeechAction.cancel,
          Effect.consoleWarn
            ("No voice found for language: " ++ lang ++ ". Using browser default."),
          Effect.speech (SpeechAction.utter text lang none)]) := by
  refine ⟨?_, ?_, ?_, ?_, ?_, ?_, ?_⟩
  · intro hr ht
    rw [handleSubmit_transform_thrown s env img himg hp hr ht]
    exact ⟨rfl, rfl⟩
  · intro r hr hc
    rw [handleSubmit_chat_thrown s env img r himg hp hr hc]
    exact ⟨rfl, rfl⟩
  · intro hr ht
    rw [handleSubmit_transform_noImage s env img himg hp hr ht]
    exact ⟨rfl, rfl⟩
  · intro r text parse language hr hc hP
    rw [handleSubmit_chat_emptyResponse s env img r text language parse himg hp hr hc hP]
    exact ⟨rfl, rfl⟩
  · intro r text parse hr hc hP hemp
    rw [handleSubmit_chat_emptyRaw s env img r text parse himg hp hr hc hP hemp]
    exact ⟨rfl, rfl⟩
  · intro r text parse hr hc hP hemp
    rw [handleSubmit_chat_fallback s env img r text parse himg hp hr hc hP hemp]
    exact ⟨rfl, rfl, rfl⟩
  · intro voices text lang gender hempty
    simp [speak, hempty]

theorem C2_failure_modes_witness :
    (handleSubmit ⟨some ⟨"AA", "image/png"⟩, some "d", "role", none, false, none, []⟩
        ⟨TransformOutcome.thrown, ChatOutcome.thrown⟩).1.error =
      some "An error occurred while generating the response. Please try again." ∧
    (handleSubmit ⟨some ⟨"AA", "image/png"⟩, some "d", "role", none, false, none, []⟩
        ⟨TransformOutcome.thrown, ChatOutcome.thrown⟩).1.prompt = "role" := by
  exact (C2_failure_modes
    ⟨some ⟨"AA", "image/png"⟩, some "d", "role", none, false, none, []⟩
    ⟨TransformOutcome.thrown, ChatOutcome.thrown⟩
    ⟨"AA", "image/png"⟩ rfl (by decide)).1 rfl rfl

/-- C5: for a spoken chat response the speech step uses the gender hint
derived from the active role through roleToGender (lowercased, trimmed,
neutral when unmapped), hands the text to the synthesizer as the final
speech action, only ever selects an installed voice whose language matches
the detected tag exactly or by primary subtag, and when some
language-matching voice name contains the male/female gender word, the
selected voice name contains it too. -/
theorem C5_voice_selection (voices : List Voice) (text lang role : String) :
    (genderOf role = (roleToGender (jsTrim (jsToLower role))).getD Gender.neutral) ∧
    ((speak voices text lang (genderOf role)).getLast? =
       some (Effect.speech (SpeechAction.utter text lang
         (selectVoice voices lang (genderOf role))))) ∧
    (∀ g v, selectVoice voices lang g = some v →
       v ∈ voices ∧
       (v.lang = lang ∨ leadsWith (splitHead '-' lang.data) v.lang.data = true)) ∧
    (∀ g, g ≠ Gender.neutral →
       (∃ w ∈ langVoicesOf voices lang, genderMatches g w = true) →
       ∃ v, selectVoice voices lang g = some v ∧ genderMatches g v = true) := by
  refine ⟨rfl, speak_last voices text lang (genderOf role), ?_, ?_⟩
  · intro g v hsel
    have hm := (langVoicesOf_spec voices lang v).mp (selectVoice_mem voices lang g v hsel)
    refine ⟨hm.1, ?_⟩
    have hl := hm.2
    simpa [langMatches] using hl
  · rintro g hg ⟨w, hw, hgw⟩
    exact selectVoice_gender voices lang g hg w hw hgw

theorem C5_voice_selection_witness :
    ((⟨"Fiona Female", "en-GB", false, false⟩ : Voice) ∈
       ([⟨"Fiona Female", "en-GB", false, false⟩,
         ⟨"Marko Male", "en-US", true, false⟩] : List Voice) ∧
     (("en-GB" : String) = "en-US" ∨
       leadsWith (splitHead '-' "en-US".data) "en-GB".data = true)) ∧
    (∃ v, selectVoice
        [⟨"Fiona Female", "en-GB", false, false⟩, ⟨"Marko Male", "en-US", true, false⟩]
        "en-US" Gender.female = some v ∧ genderMatches Gender.female v = true) := by
  have h := C5_voice_selection
    [⟨"Fiona Female", "en-GB", false, false⟩, ⟨"Marko Male", "en-US", true, false⟩]
    "hi" "en-US" " Queen "
  refine ⟨h.2.2.1 Gender.female ⟨"Fiona Female", "en-GB", false, false⟩ (by decide), ?_⟩
  exact h.2.2.2 Gender.female (by decide)
    ⟨⟨"Fiona Female", "en-GB", false, false⟩, by decide, by decide⟩

/-- C6: every speech invocation first cancels the global synthesizer and
queues exactly one utterance, and in every submission trace each utterance
is preceded by a cancel issued after any earlier utterance, so the program
never has more than one utterance queued. -/
theorem C6_speech_cancel (voices : List Voice) (text lang : String) (g : Gender)
    (s : AppState) (env : Env) :
    ((speak voices text lang g).head? = some (Effect.speech SpeechAction.cancel)) ∧
    (utterCount (speak voices text lang g) = 1) ∧
    (serialized (handleSubmit s env).2 = true) := by
  refine ⟨?_, ?_, ?_⟩
  · by_cases h : (langVoicesOf voices lang).isEmpty <;> simp [speak, h]
  · by_cases h : (langVoicesOf voices lang).isEmpty <;> simp [speak, utterCount, h]
  · rcases hoi : s.originalImage with _ | img
    · rw [handleSubmit_guard_fail s env (Or.inr hoi)]
      rfl
    · by_cases hp : jsTrim s.prompt = ""
      · rw [handleSubmit_guard_fail s env (Or.inl hp)]
        rfl
      · rcases hr : s.currentRole with _ | r
        · rcases ht : env.transform with _ | inl
          · rw [handleSubmit_transform_thrown s env img hoi hp hr ht]; rfl
          · rcases inl with _ | d
            · rw [handleSubmit_transform_noImage s env img hoi hp hr ht]; rfl
            · rw [handleSubmit_transform_success s env img d hoi hp hr ht]; rfl
        · rcases hc : env.chat with _ | ⟨text2, parse⟩
          · rw [handleSubmit_chat_thrown s env img r hoi hp hr hc]; rfl
          · rcases hP : parse (jsonStringOf (jsTrim text2)) with _ | ⟨language, textResponse⟩
            · by_cases hemp : jsTrim text2 = ""
              · rw [handleSubmit_chat_emptyRaw s env img r text2 parse hoi hp hr hc hP hemp]; rfl
              · rw [handleSubmit_chat_fallback s env img r text2 parse hoi hp hr hc hP hemp]
                exact serializedGo_speak false s.voices (jsTrim text2) "en-US" (genderOf r)
            · by_cases hemp : textResponse = ""
              · rw [hemp] at hP
                rw [handleSubmit_chat_emptyResponse s env img r text2 language parse
                  hoi hp hr hc hP]; rfl
              · rw [handleSubmit_chat_success s env img r text2 language textResponse parse
                  hoi hp hr hc hP hemp]
                exact serializedGo_speak false s.voices textResponse language (genderOf r)
